import Mathlib

/-!
Shallow embedding of the data-access layer of `src/app.py` (class `DatabaseManager`),
a single-file SQLite-backed chat application.

Modelling conventions:
* Each SQLite table is a Lean `List` of row structures inside `DBState`; rows keep the
  column names of the schema in `init_database` (src/app.py lines 301-423).
* SQL `TEXT` columns are `String`, nullable columns are `Option _`, `BOOLEAN` is `Bool`,
  and `TIMESTAMP` values are `Nat` (ISO-8601 strings produced by `datetime.now()` compare
  chronologically, so ordering by a `Nat` time models SQLite text ordering of them).
  `CURRENT_TIMESTAMP` / `datetime.now()` values are passed in as explicit `now` arguments.
* `uuid.uuid4()` results are passed in as explicit fresh-identifier arguments; the
  `AUTOINCREMENT` rowid of `friend_requests` is a counter threaded through `DBState`.
* `hashlib.sha256(...).hexdigest()` is an uninterpreted deterministic function passed as
  a `hash : String → String` argument.
* A fallible `INSERT` raising `sqlite3.IntegrityError` is modelled by checking the
  violated `UNIQUE`/`PRIMARY KEY` constraint and leaving the state unchanged, matching
  the `try/except sqlite3.IntegrityError` blocks in the source.
-/

/-- A row of the `users` table (src/app.py lines 307-321): `user_id` PRIMARY KEY,
`username` UNIQUE, `email` UNIQUE; `status_message` and `online_status` have defaults. -/
structure UserRow where
  user_id : String
  username : String
  email : String
  password_hash : String
  phone : Option String
  status_message : String
  online_status : String
  last_seen : Nat
  created_at : Nat
  is_verified : Bool
deriving DecidableEq

/-- The reactions column content: a JSON object mapping an emoji to a list of user ids,
decoded by `json.loads` (a `NULL` column decodes to the empty map `{}`). -/
abbrev Reactions := List (String × List String)

/-- A row of the `messages` table (src/app.py lines 324-340). Defaults: `message_type`
"text", `status` "sent", `is_deleted` FALSE. There is no `expires_at` column. -/
structure MessageRow where
  message_id : String
  sender_id : String
  recipient_id : Option String
  group_id : Option String
  content : String
  message_type : String
  status : String
  timestamp : Nat
  edited_at : Option Nat
  reply_to : Option String
  reactions : Reactions
  is_deleted : Bool
deriving DecidableEq

/-- A row of the `contacts` table (src/app.py lines 343-357), with
`UNIQUE(user_id, contact_id)`; the AUTOINCREMENT surrogate id is not modelled because no
operation reads it. -/
structure ContactRow where
  user_id : String
  contact_id : String
  nickname : Option String
  is_blocked : Bool
  is_favorite : Bool
  added_at : Nat
  status : String
deriving DecidableEq

/-- A row of the `groups` table (src/app.py lines 360-372); `admin_ids` and `member_ids`
are stored as `json.dumps` of Python lists, modelled structurally as `List String` with
the serialization reconstructed where the source consumes the raw text. -/
structure GroupRow where
  group_id : String
  name : String
  description : String
  avatar : Option String
  creator_id : String
  admin_ids : List String
  member_ids : List String
  created_at : Nat
deriving DecidableEq

/-- A row of the `notifications` table (src/app.py lines 391-402). -/
structure NotificationRow where
  notification_id : String
  user_id : String
  title : String
  message : String
  type : String
  created_at : Nat
  is_read : Bool
deriving DecidableEq

/-- A row of the `friend_requests` table (src/app.py lines 405-417):
`id` INTEGER PRIMARY KEY AUTOINCREMENT, `UNIQUE(sender_id, receiver_id)`. -/
structure FriendRequestRow where
  id : Nat
  sender_id : String
  receiver_id : String
  message : String
  status : String
  created_at : Nat
deriving DecidableEq

/-- The database state: one list per table (the `stories` table has no operations in
`DatabaseManager`, so it is omitted), plus the AUTOINCREMENT counter of
`friend_requests`. -/
structure DBState where
  users : List UserRow
  messages : List MessageRow
  contacts : List ContactRow
  groups : List GroupRow
  notifications : List NotificationRow
  friend_requests : List FriendRequestRow
  next_request_id : Nat
deriving DecidableEq

/-- The empty database produced by `init_database` before `create_demo_data` runs
(every table empty, AUTOINCREMENT starting at 1). -/
def initState : DBState :=
  { users := [], messages := [], contacts := [], groups := [], notifications := [],
    friend_requests := [], next_request_id := 1 }

/-- The row the INSERT of `create_user` stores (src/app.py lines 465-468), with the
schema defaults of the omitted columns. -/
def newUserRow (hash : String → String) (user_id username email password : String)
    (phone : Option String) (now : Nat) : UserRow :=
  { user_id := user_id, username := username, email := email,
    password_hash := hash password, phone := phone,
    status_message := "Hey there! I\x27m using ChatFusion", online_status := "online",
    last_seen := now, created_at := now, is_verified := false }

/-- `DatabaseManager.create_user` (src/app.py lines 456-487): INSERT a fresh row into
`users`; a `sqlite3.IntegrityError` (duplicate `user_id`, `username` or `email`) is
caught and `None` is returned with no change committed. On success the new row is
appended and returned (the source rebuilds an equivalent `User` dataclass from the same
values; we return the inserted row). -/
def create_user (hash : String → String) (st : DBState) (user_id username email password : String)
    (phone : Option String) (now : Nat) : Option UserRow × DBState :=
  let row : UserRow := newUserRow hash user_id username email password phone now
  if st.users.any (fun u =>
      u.user_id == user_id || u.username == username || u.email == email) then
    (none, st)
  else
    (some row, { st with users := st.users ++ [row] })

/-- `DatabaseManager.authenticate_user` (src/app.py lines 489-531): SELECT the row with
the given `username` and `password_hash = sha256(password)`; if found, UPDATE its
`last_seen`/`online_status` and return the user (built from the values read before the
update, hence with the old `last_seen`). -/
def authenticate_user (hash : String → String) (st : DBState) (username password : String)
    (now : Nat) : Option UserRow × DBState :=
  match st.users.find? (fun u =>
      u.username == username && u.password_hash == hash password) with
  | some u =>
      (some u,
       { st with users := st.users.map (fun v =>
           if v.user_id == u.user_id then
             { v with last_seen := now, online_status := "online" }
           else v) })
  | none => (none, st)

/-- `DatabaseManager.get_user_by_id` (src/app.py lines 760-787): SELECT the row whose
`user_id` matches. -/
def get_user_by_id (st : DBState) (user_id : String) : Option UserRow :=
  st.users.find? (fun u => u.user_id == user_id)

/-- `DatabaseManager.create_notification` (src/app.py lines 789-802): INSERT one row
into `notifications` (defaults: `created_at` CURRENT_TIMESTAMP, `is_read` FALSE). -/
def create_notification (st : DBState) (notification_id user_id title message
    notification_type : String) (now : Nat) : DBState :=
  { st with notifications := st.notifications ++
      [{ notification_id := notification_id, user_id := user_id, title := title,
         message := message, type := notification_type, created_at := now,
         is_read := false }] }

/-- The guard `if recipient_id and recipient_id != sender_id` of
`DatabaseManager.send_message` (src/app.py line 550): Python truthiness makes both
`None` and the empty string skip the notification. -/
def notify_cond (recipient_id : Option String) (sender_id : String) : Bool :=
  match recipient_id with
  | some r => !(r == "") && !(r == sender_id)
  | none => false

/-- The notification body of `send_message` (src/app.py line 555):
`content[:50] + "..." if len(content) > 50 else content`. -/
def truncated_content (content : String) : String :=
  if content.length > 50 then content.take 50 ++ "..." else content

/-- The sender name `send_message` puts in the notification title (src/app.py line 551):
the username of `get_user_by_id(sender_id)`, or "Unknown" when the sender row is
absent. -/
def sender_display_name (st : DBState) (sender_id : String) : String :=
  match get_user_by_id st sender_id with
  | some u => u.username
  | none => "Unknown"

/-- `DatabaseManager.send_message` (src/app.py lines 533-570): INSERT a row into
`messages` (columns message_id, sender_id, recipient_id, group_id, content,
message_type, timestamp; the remaining columns take their schema defaults, in
particular `status` = "sent"), then, when the recipient is truthy and differs from the
sender, create one notification for the recipient. The `message_id` argument stands for
the fresh `uuid.uuid4()`; the PRIMARY KEY check is not modelled (a collision would be an
uncaught exception in the source). The source returns a `Message` dataclass built from
the same values; we return the inserted row. -/
def send_message (st : DBState) (message_id sender_id : String)
    (recipient_id : Option String) (content message_type : String)
    (group_id : Option String) (now : Nat) (notif_id : String) : MessageRow × DBState :=
  let row : MessageRow :=
    { message_id := message_id, sender_id := sender_id, recipient_id := recipient_id,
      group_id := group_id, content := content, message_type := message_type,
      status := "sent", timestamp := now, edited_at := none, reply_to := none,
      reactions := [], is_deleted := false }
  let st1 : DBState := { st with messages := st.messages ++ [row] }
  let st2 : DBState :=
    if notify_cond recipient_id sender_id then
      match recipient_id with
      | some r => create_notification st1 notif_id r
          ("New message from " ++ sender_display_name st1 sender_id)
          (truncated_content content) "message" now
      | none => st1
    else st1
  (row, st2)

/-- The WHERE clause of `DatabaseManager.get_messages` (src/app.py lines 581-582):
`(sender_id = ? AND recipient_id = ?) OR (sender_id = ? AND recipient_id = ?)` for the
pair (user_id, contact_id). A NULL `recipient_id` compares unequal to any value. Note
that the query applies no `is_deleted` filter and the schema has no expiry column. -/
def direct_pair (user_id contact_id : String) (m : MessageRow) : Bool :=
  (m.sender_id == user_id && m.recipient_id == some contact_id) ||
  (m.sender_id == contact_id && m.recipient_id == some user_id)

/-- Ascending timestamp order used by `ORDER BY timestamp ASC`. -/
def tsLE (x y : MessageRow) : Prop := x.timestamp ≤ y.timestamp

instance : DecidableRel tsLE := fun x y => Nat.decLe x.timestamp y.timestamp

instance : IsTotal MessageRow tsLE := ⟨fun x y => Nat.le_total x.timestamp y.timestamp⟩

instance : IsTrans MessageRow tsLE := ⟨fun _ _ _ => Nat.le_trans⟩

/-- `DatabaseManager.get_messages` (src/app.py lines 572-607): SELECT the rows matching
either direction of the pair, `ORDER BY timestamp ASC LIMIT ?`. SQLite evaluates LIMIT
after ORDER BY, so the query keeps the `limit` chronologically earliest matches. The
source rebuilds `Message` dataclasses from the selected columns (decoding `reactions`
with `json.loads`); we return the rows. -/
def get_messages (st : DBState) (user_id contact_id : String) (limit : Nat) :
    List MessageRow :=
  ((st.messages.filter (direct_pair user_id contact_id)).insertionSort tsLE).take limit

/-- `DatabaseManager.send_friend_request` (src/app.py lines 663-691): INSERT into
`friend_requests`; `UNIQUE(sender_id, receiver_id)` makes a duplicate ordered pair raise
`sqlite3.IntegrityError`, returning `False`. On success, notify the receiver when the
sender row exists, and return `True`. -/
def send_friend_request (st : DBState) (sender_id receiver_id message : String)
    (now : Nat) (notif_id : String) : Bool × DBState :=
  if st.friend_requests.any (fun r =>
      r.sender_id == sender_id && r.receiver_id == receiver_id) then
    (false, st)
  else
    let row : FriendRequestRow :=
      { id := st.next_request_id, sender_id := sender_id, receiver_id := receiver_id,
        message := message, status := "pending", created_at := now }
    let st1 : DBState := { st with
      friend_requests := st.friend_requests ++ [row],
      next_request_id := st.next_request_id + 1 }
    let st2 : DBState :=
      match get_user_by_id st1 sender_id with
      | some sender => create_notification st1 notif_id receiver_id "New friend request"
          (sender.username ++ " wants to be your friend") "friend_request" now
      | none => st1
    (true, st2)

/-- One direction of the contact pair `respond_to_friend_request` inserts
(src/app.py lines 738-741): `(user_id, contact_id, status)` with status "accepted" and
the schema defaults of the omitted columns. -/
def accepted_contact (user_id contact_id : String) (now : Nat) : ContactRow :=
  { user_id := user_id, contact_id := contact_id, nickname := none, is_blocked := false,
    is_favorite := false, added_at := now, status := "accepted" }

/-- `DatabaseManager.respond_to_friend_request` (src/app.py lines 712-758): look the
request up by id (`.ok (False, unchanged)` when absent); UPDATE its status to the
`response` string on the not-yet-committed connection; when the response is "accepted",
attempt one INSERT of the two contact rows. The single multi-row INSERT aborts as a
whole on `sqlite3.IntegrityError` — when either direction already exists in `contacts`,
or when the two inserted rows collide because `sender_id = receiver_id` — and the
`except` block ignores the error, so the call commits just the status update and
returns True. When the INSERT succeeds, however, the source then reads the receiver
(`get_user_by_id`, a read on a second connection, which is allowed) and, if the
receiver row exists, calls `create_notification` — a WRITE on a second connection while
the first connection still holds the uncommitted UPDATE/INSERT (the commit at line 756
comes only after the notification at line 746). SQLite then raises
`sqlite3.OperationalError` ("database is locked") once the busy timeout expires; only
`IntegrityError` is caught, so the exception propagates, the first connection closes
without committing, and the whole call rolls back with no rows written. This is
modelled as `.error` with the database unchanged. The `notif_id` argument stands for
the uuid the notification would have received on the (unreachable) success of that
write. -/
def respond_to_friend_request (st : DBState) (request_id : Nat) (response : String)
    (now : Nat) (notif_id : String) : Except String (Bool × DBState) :=
  match st.friend_requests.find? (fun r => r.id == request_id) with
  | none => .ok (false, st)
  | some req =>
    let st1 : DBState := { st with friend_requests := st.friend_requests.map (fun r =>
        if r.id == request_id then { r with status := response } else r) }
    if response == "accepted" then
      if req.sender_id == req.receiver_id
          || st1.contacts.any (fun c =>
              (c.user_id == req.sender_id && c.contact_id == req.receiver_id) ||
              (c.user_id == req.receiver_id && c.contact_id == req.sender_id)) then
        .ok (true, st1)
      else
        let st2 : DBState := { st1 with contacts := st1.contacts ++
            [accepted_contact req.sender_id req.receiver_id now,
             accepted_contact req.receiver_id req.sender_id now] }
        match get_user_by_id st2 req.receiver_id with
        | some _ => .error "sqlite3.OperationalError: database is locked"
        | none => .ok (true, st2)
    else .ok (true, st1)

/-- `DatabaseManager.mark_notification_read` (src/app.py lines 822-832): UPDATE the row
with the given id to `is_read = TRUE`. -/
def mark_notification_read (st : DBState) (notification_id : String) : DBState :=
  { st with notifications := st.notifications.map (fun n =>
      if n.notification_id == notification_id then { n with is_read := true } else n) }

/-- `DatabaseManager.update_user_status` (src/app.py lines 899-910): UPDATE the online_status of the user and `last_seen`. -/
def update_user_status (st : DBState) (user_id status : String) (now : Nat) : DBState :=
  { st with users := st.users.map (fun u =>
      if u.user_id == user_id then
        { u with online_status := status, last_seen := now }
      else u) }

/-- `DatabaseManager.create_group` (src/app.py lines 834-870):
`all_members = list(set([creator_id] + member_ids))` deduplicates the member list
(the Python set iteration order is unspecified; `List.dedup` is a deterministic,
duplicate-free stand-in with the same elements); INSERT the group with
`admin_ids = [creator_id]`; then notify every entry of the original `member_ids` other
than the creator (the `notif_ids` list supplies the fresh `uuid.uuid4()` notification
ids positionally). The source returns a `Group` dataclass with the same values; we
return the inserted row. -/
def create_group (st : DBState) (group_id name description creator_id : String)
    (member_ids : List String) (now : Nat) (notif_ids : List String) :
    GroupRow × DBState :=
  let all_members := (creator_id :: member_ids).dedup
  let row : GroupRow :=
    { group_id := group_id, name := name, description := description, avatar := none,
      creator_id := creator_id, admin_ids := [creator_id], member_ids := all_members,
      created_at := now }
  let st1 : DBState := { st with groups := st.groups ++ [row] }
  let creator_name := match get_user_by_id st1 creator_id with
    | some u => u.username
    | none => "Someone"
  let targets := member_ids.filter (fun m => !(m == creator_id))
  let st2 : DBState := { st1 with
    notifications := st1.notifications ++
      targets.enum.map (fun p =>
        { notification_id := notif_ids.getD p.1 "", user_id := p.2,
          title := "Added to group",
          message := creator_name ++ " added you to \x27" ++ name ++ "\x27",
          type := "group_added", created_at := now, is_read := false }) }
  (row, st2)

/-- One character of the `json.dumps` string encoding (only `"` and `\` occur in the
identifiers this development evaluates; control-character escapes are not needed). -/
def jsonEscapeChar (c : Char) : String :=
  if c = '"' then "\\\"" else if c = '\\' then "\\\\" else String.singleton c

/-- `json.dumps` of one string. -/
def jsonEncodeString (s : String) : String :=
  "\"" ++ String.join (s.data.map jsonEscapeChar) ++ "\""

/-- The text the SQLite call json_extract of member_ids at the root path produces for the stored
`json.dumps` of a list of strings: the minified JSON array text. -/
def jsonEncodeStringList (l : List String) : String :=
  "[" ++ String.intercalate "," (l.map jsonEncodeString) ++ "]"

/-- SQLite `LIKE` folds ASCII letters to one case. -/
def sqliteLowerChar (c : Char) : Char :=
  if 'A' ≤ c && c ≤ 'Z' then Char.ofNat (c.toNat + 32) else c

/-- SQLite `LIKE` matching (no ESCAPE clause): `%` matches any run, `_` any single
character, other characters match up to ASCII case. The fuel argument only bounds the
recursion depth; `likeMatch` supplies more than enough. -/
def likeMatchAux : Nat → List Char → List Char → Bool
  | 0, _, _ => false
  | fuel + 1, p, s =>
    match p, s with
    | [], [] => true
    | [], _ :: _ => false
    | '%' :: ps, s =>
        likeMatchAux fuel ps s ||
          (match s with
           | [] => false
           | _ :: t => likeMatchAux fuel ('%' :: ps) t)
    | '_' :: ps, _ :: t => likeMatchAux fuel ps t
    | '_' :: _, [] => false
    | _ :: _, [] => false
    | c :: ps, d :: t => sqliteLowerChar c == sqliteLowerChar d && likeMatchAux fuel ps t

/-- SQLite `expr LIKE pattern`. -/
def likeMatch (pattern text : String) : Bool :=
  likeMatchAux (pattern.length + text.length + 1) pattern.data text.data

/-- `DatabaseManager.get_user_groups` (src/app.py lines 872-897): SELECT the groups
`WHERE json_extract ... LIKE ?` with an f-string pattern that wraps user_id between a percent-quote prefix and a quote-percent suffix — a
substring test against the serialized member list, not an exact membership test. The
source projects each row to a summary dict; we return the rows. -/
def get_user_groups (st : DBState) (user_id : String) : List GroupRow :=
  st.groups.filter (fun g =>
    likeMatch ("%\"" ++ user_id ++ "\"%") (jsonEncodeStringList g.member_ids))

/-- Reference behaviour for `getUserGroups` written from the spec (section 4.3:
"membership test must be exact-element containment, not substring match"), used to
compare the source behaviour against the specified one. -/
def get_user_groups_spec (st : DBState) (user_id : String) : List GroupRow :=
  st.groups.filter (fun g => g.member_ids.contains user_id)

/-- Modelled from the spec: `softDeleteMessage(messageId)` (spec section 4.1, "sets
is_deleted=true") is missing from src/app.py — the `is_deleted` column is declared in
the schema (line 337) but no operation ever writes it. -/
def softDeleteMessage (st : DBState) (message_id : String) : DBState :=
  { st with messages := st.messages.map (fun m =>
      if m.message_id == message_id then { m with is_deleted := true } else m) }

/-- Modelled from the spec: `toggleReaction(messageId, emoji, userId)` (spec section
4.1) is missing from src/app.py — only the `reactions` column is declared in the schema
(line 336). Per the spec: "idempotent flip: if userId present in reactions[emoji],
remove it (pruning the key if now empty); else add it." This is the pure flip on one
decoded reactions map of one message. -/
def toggleReaction : Reactions → String → String → Reactions
  | [], emoji, user_id => [(emoji, [user_id])]
  | (e, us) :: rest, emoji, user_id =>
    if e = emoji then
      if user_id ∈ us then
        let us' := us.erase user_id
        if us' = [] then rest else (e, us') :: rest
      else (e, us ++ [user_id]) :: rest
    else (e, us) :: toggleReaction rest emoji user_id

/-- Whether `user_id` currently reacts to `emoji` in a decoded reactions map. -/
def reacted (r : Reactions) (emoji user_id : String) : Bool :=
  match r.lookup emoji with
  | some us => us.contains user_id
  | none => false

/-- Well-formedness of a decoded reactions map, guaranteed by the Python `dict` of
lists-used-as-sets: emoji keys are distinct and no user appears twice under one key. -/
def WFReactions (r : Reactions) : Prop :=
  (r.map Prod.fst).Nodup ∧ ∀ p ∈ r, (Prod.snd p).Nodup

/-- No emoji key is mapped to an empty user list. -/
def NoEmptyReactions (r : Reactions) : Prop :=
  ∀ p ∈ r, Prod.snd p ≠ []

/-- One mutating call of the data layer, for reachability arguments: each constructor
carries the arguments of the corresponding `DatabaseManager` method (read-only queries
do not change the state and are omitted). -/
inductive DBOp where
  | createUser (hash : String → String) (user_id username email password : String)
      (phone : Option String) (now : Nat)
  | authenticateUser (hash : String → String) (username password : String) (now : Nat)
  | sendMessage (message_id sender_id : String) (recipient_id : Option String)
      (content message_type : String) (group_id : Option String) (now : Nat)
      (notif_id : String)
  | sendFriendRequest (sender_id receiver_id message : String) (now : Nat)
      (notif_id : String)
  | respondToFriendRequest (request_id : Nat) (response : String) (now : Nat)
      (notif_id : String)
  | createNotification (notification_id user_id title message notification_type : String)
      (now : Nat)
  | markNotificationRead (notification_id : String)
  | createGroup (group_id name description creator_id : String)
      (member_ids : List String) (now : Nat) (notif_ids : List String)
  | updateUserStatus (user_id status : String) (now : Nat)

/-- The state transition of one data-layer call. -/
def step (st : DBState) : DBOp → DBState
  | .createUser hash user_id username email password phone now =>
      (create_user hash st user_id username email password phone now).2
  | .authenticateUser hash username password now =>
      (authenticate_user hash st username password now).2
  | .sendMessage message_id sender_id recipient_id content message_type group_id now
      notif_id =>
      (send_message st message_id sender_id recipient_id content message_type group_id
        now notif_id).2
  | .sendFriendRequest sender_id receiver_id message now notif_id =>
      (send_friend_request st sender_id receiver_id message now notif_id).2
  | .respondToFriendRequest request_id response now notif_id =>
      match respond_to_friend_request st request_id response now notif_id with
      | .ok p => p.2
      | .error _ => st
  | .createNotification notification_id user_id title message notification_type now =>
      create_notification st notification_id user_id title message notification_type now
  | .markNotificationRead notification_id => mark_notification_read st notification_id
  | .createGroup group_id name description creator_id member_ids now notif_ids =>
      (create_group st group_id name description creator_id member_ids now notif_ids).2
  | .updateUserStatus user_id status now => update_user_status st user_id status now

/-- Completeness of the `get_messages` query: a matching row is returned whenever all
matching rows fit in the limit (shared helper). -/
theorem mem_get_messages_of_mem_filter (st : DBState) (a b : String) (n : Nat)
    (m : MessageRow) (hm : m ∈ st.messages) (hp : direct_pair a b m = true)
    (hlen : (st.messages.filter (direct_pair a b)).length ≤ n) :
    m ∈ get_messages st a b n := by
  unfold get_messages
  have hperm := List.perm_insertionSort tsLE (st.messages.filter (direct_pair a b))
  rw [List.take_of_length_le (by rw [hperm.length_eq]; exact hlen)]
  exact hperm.mem_iff.mpr (List.mem_filter.mpr ⟨hm, hp⟩)

/-- A direct "alice" to "bob" example message used in concrete evaluations. -/
def exMessage (message_id : String) (timestamp : Nat) (is_deleted : Bool) : MessageRow :=
  { message_id := message_id, sender_id := "alice", recipient_id := some "bob",
    group_id := none, content := "hi", message_type := "text", status := "sent",
    timestamp := timestamp, edited_at := none, reply_to := none, reactions := [],
    is_deleted := is_deleted }

/-- A database holding one soft-deleted and two live direct messages between "alice"
and "bob". -/
def exMessagesSt : DBState :=
  { initState with messages :=
      [exMessage "m1" 1 true, exMessage "m2" 2 false, exMessage "m3" 3 false] }

/-- C1 (amended): `get_messages(user_id, contact_id, limit)` (src/app.py lines 572-607)
returns exactly the messages whose (sender, recipient) pair matches either direction,
ordered chronologically ascending and containing at most `limit` messages — but, contrary
to the original claim, the query applies no `is_deleted` filter and no expiry filter
(the schema has no `expires_at` column), and the LIMIT keeps the chronologically
EARLIEST matching rows rather than the most recent ones: every matching row,
soft-deleted or not, is returned whenever the matching rows fit within the limit. -/
theorem get_messages_spec (st : DBState) (a b : String) (n : Nat) :
    (get_messages st a b n).length ≤ n ∧
    List.Sorted tsLE (get_messages st a b n) ∧
    (∀ m, m ∈ get_messages st a b n → m ∈ st.messages ∧ direct_pair a b m = true) ∧
    (∀ m, m ∈ st.messages → direct_pair a b m = true →
      (st.messages.filter (direct_pair a b)).length ≤ n →
      m ∈ get_messages st a b n) := by
  refine ⟨List.length_take_le n _, ?_, ?_, ?_⟩
  · exact (List.sorted_insertionSort tsLE _).sublist (List.take_sublist n _)
  · intro m hm
    have h1 : m ∈ (st.messages.filter (direct_pair a b)).insertionSort tsLE :=
      List.take_subset n _ hm
    exact List.mem_filter.mp ((List.perm_insertionSort tsLE _).mem_iff.mp h1)
  · exact fun m hm hp hlen => mem_get_messages_of_mem_filter st a b n m hm hp hlen

/-- C1 witness: the completeness conjunct of `get_messages_spec` at a concrete database:
the soft-deleted matching message is among the returned rows when the limit is 5. -/
theorem get_messages_spec_witness :
    exMessage "m1" 1 true ∈ get_messages exMessagesSt "alice" "bob" 5 :=
  (get_messages_spec exMessagesSt "alice" "bob" 5).2.2.2 (exMessage "m1" 1 true)
    (by decide) (by decide) (by decide)

/-- C1 counterexample: on a database whose oldest matching message is soft-deleted,
`get_messages("alice", "bob", 2)` returns that soft-deleted message and drops the most
recent matching one; the claim (exclude `is_deleted` rows, keep the most recent `limit`
rows) predicts the other two messages instead. -/
theorem get_messages_claim_counterexample :
    get_messages exMessagesSt "alice" "bob" 2
      = [exMessage "m1" 1 true, exMessage "m2" 2 false] ∧
    (exMessage "m1" 1 true).is_deleted = true ∧
    exMessage "m3" 3 false ∈ exMessagesSt.messages ∧
    direct_pair "alice" "bob" (exMessage "m3" 3 false) = true ∧
    (exMessage "m2" 2 false).timestamp < (exMessage "m3" 3 false).timestamp ∧
    exMessage "m3" 3 false ∉ get_messages exMessagesSt "alice" "bob" 2 := by decide

/-- An example one-user database (hash function: identity stand-in). -/
def exUsersSt : DBState :=
  { initState with users := [newUserRow (fun s => s) "u1" "alice" "a@x" "pw" none 0] }

/-- C2: for every state of the users table, `create_user` with an already-present
username or email returns None and leaves the state (in particular every existing user
row) unchanged; with a fresh username and email it succeeds, returning the new user and
appending exactly its row. The `hfresh` hypothesis states that the `user_id` argument is
fresh, which the source guarantees by drawing it from `uuid.uuid4()`. -/
theorem create_user_duplicate_spec (hash : String → String) (st : DBState)
    (user_id username email password : String) (phone : Option String) (now : Nat)
    (hfresh : ∀ u ∈ st.users, u.user_id ≠ user_id) :
    ((∃ u ∈ st.users, u.username = username ∨ u.email = email) →
      create_user hash st user_id username email password phone now = (none, st)) ∧
    ((∀ u ∈ st.users, u.username ≠ username ∧ u.email ≠ email) →
      create_user hash st user_id username email password phone now
        = (some (newUserRow hash user_id username email password phone now),
           { st with users := st.users ++
               [newUserRow hash user_id username email password phone now] })) := by
  constructor
  · rintro ⟨u, hu, hor⟩
    have hany : (st.users.any fun u =>
        u.user_id == user_id || u.username == username || u.email == email) = true := by
      refine List.any_eq_true.mpr ⟨u, hu, ?_⟩
      rcases hor with h | h <;> simp [h]
    simp [create_user, hany]
  · intro h
    have hany : (st.users.any fun u =>
        u.user_id == user_id || u.username == username || u.email == email) = false := by
      refine List.any_eq_false.mpr ?_
      intro u hu
      simp [hfresh u hu, (h u hu).1, (h u hu).2]
    simp [create_user, hany]

/-- C2 witness: against a database already holding user "alice", creating a second
"alice" returns None and leaves the database unchanged. -/
theorem create_user_duplicate_spec_witness :
    create_user (fun s => s) exUsersSt "u2" "alice" "b@x" "pw2" none 1
      = (none, exUsersSt) :=
  (create_user_duplicate_spec (fun s => s) exUsersSt "u2" "alice" "b@x" "pw2" none 1
      (by decide)).1
    ⟨newUserRow (fun s => s) "u1" "alice" "a@x" "pw" none 0, by decide, Or.inl rfl⟩

/-- C3: after a successful `create_user(username, email, password)`, a subsequent
`authenticate_user(username, password)` succeeds, returning the created user (not
None): the stored row carries `sha256(password)` and the authentication query matches
on exactly that username and hash. -/
theorem create_then_authenticate (hash : String → String) (st : DBState)
    (user_id username email password : String) (phone : Option String) (now now2 : Nat)
    (hsucc : (create_user hash st user_id username email password phone now).1.isSome) :
    (authenticate_user hash
        (create_user hash st user_id username email password phone now).2
        username password now2).1
      = some (newUserRow hash user_id username email password phone now) := by
  by_cases hany : (st.users.any fun u =>
      u.user_id == user_id || u.username == username || u.email == email) = true
  · exfalso
    simp [create_user, hany] at hsucc
  · have hany' : (st.users.any fun u =>
        u.user_id == user_id || u.username == username || u.email == email) = false :=
      Bool.eq_false_iff.mpr hany
    have hne : ∀ u ∈ st.users, u.username ≠ username := by
      intro u hu heq
      exact List.any_eq_false.mp hany' u hu (by simp [heq])
    have hstate : (create_user hash st user_id username email password phone now).2.users
        = st.users ++ [newUserRow hash user_id username email password phone now] := by
      simp [create_user, hany']
    have hfind : ((create_user hash st user_id username email password phone
          now).2.users.find? (fun u =>
            u.username == username && u.password_hash == hash password))
        = some (newUserRow hash user_id username email password phone now) := by
      rw [hstate, List.find?_append]
      have h1 : (st.users.find? fun u =>
          u.username == username && u.password_hash == hash password) = none := by
        refine List.find?_eq_none.mpr ?_
        intro u hu
        simp [hne u hu]
      rw [h1]
      simp [List.find?, newUserRow]
    unfold authenticate_user
    rw [hfind]

/-- C3 witness: registering "alice" in the empty database and then authenticating with
the same password returns the created user. -/
theorem create_then_authenticate_witness :
    (authenticate_user (fun s => s)
        (create_user (fun s => s) initState "u1" "alice" "a@x" "pw" none 0).2
        "alice" "pw" 1).1
      = some (newUserRow (fun s => s) "u1" "alice" "a@x" "pw" none 0) :=
  create_then_authenticate (fun s => s) initState "u1" "alice" "a@x" "pw" none 0 1
    (by decide)

/-- A database holding users "alice" (id "u1") and "bob" (id "u2") and a fresh pending
friend request from u1 to u2, with no contact rows. -/
def exAcceptSt : DBState :=
  { initState with
    users := [newUserRow (fun s => s) "u1" "alice" "a@x" "pw" none 0,
              newUserRow (fun s => s) "u2" "bob" "b@x" "pw" none 0],
    friend_requests := [{ id := 1, sender_id := "u1", receiver_id := "u2",
                          message := "", status := "pending", created_at := 0 }],
    next_request_id := 2 }

/-- C4 (code bug): on a database where both users of a fresh friend request exist,
accepting does NOT insert the two contact rows and does NOT return True — it raises.
After the contacts INSERT succeeds on the still-uncommitted first connection, the
source calls `create_notification`, a write on a second connection that SQLite rejects
with `OperationalError` ("database is locked") once the busy timeout expires, and the
`except sqlite3.IntegrityError` handler does not catch it (src/app.py lines 736-756:
the commit at line 756 comes only after the notification at line 746). The exception
propagates and the uncommitted transaction rolls back, leaving the database completely
unchanged — contradicting the claim that accept inserts exactly two Contact rows and
does not error. The second conjunct states the resulting database state: identical to
the input. -/
theorem respond_accept_lock_bug :
    respond_to_friend_request exAcceptSt 1 "accepted" 5 "n1"
      = Except.error "sqlite3.OperationalError: database is locked" ∧
    step exAcceptSt (DBOp.respondToFriendRequest 1 "accepted" 5 "n1")
      = exAcceptSt :=
  ⟨rfl, rfl⟩

/-- `send_message` appends exactly the returned row to the messages table, whatever the
notification branch does (shared helper). -/
theorem send_message_messages (st : DBState) (mid sid : String) (rid : Option String)
    (content mtype : String) (gid : Option String) (now : Nat) (nid : String) :
    (send_message st mid sid rid content mtype gid now nid).2.messages
      = st.messages ++ [(send_message st mid sid rid content mtype gid now nid).1] := by
  simp only [send_message]
  split
  · split <;> simp [create_notification]
  · rfl

/-- C5 (amended): `send_message` accepts no TTL argument and computes no `expires_at`
(the messages schema has no such column), so a sent message stays visible to
`get_messages` regardless of the passage of time whenever the conversation fits in the
limit — and it even stays visible, flagged, after the spec-level `softDeleteMessage`
sets its `is_deleted` flag, because the read query applies no deletion filter. -/
theorem send_message_no_ttl_spec (st : DBState) (mid a b content mtype : String)
    (gid : Option String) (now : Nat) (nid : String) (limit : Nat)
    (hfresh : ∀ m ∈ st.messages, m.message_id ≠ mid)
    (hcount : (st.messages.filter (direct_pair a b)).length < limit) :
    (send_message st mid a (some b) content mtype gid now nid).1
      ∈ get_messages (send_message st mid a (some b) content mtype gid now nid).2
          a b limit ∧
    { (send_message st mid a (some b) content mtype gid now nid).1 with
        is_deleted := true }
      ∈ get_messages
          (softDeleteMessage
            (send_message st mid a (some b) content mtype gid now nid).2 mid)
          a b limit := by
  have hmsgs := send_message_messages st mid a (some b) content mtype gid now nid
  have hrow : (send_message st mid a (some b) content mtype gid now nid).1
      = { message_id := mid, sender_id := a, recipient_id := some b, group_id := gid,
          content := content, message_type := mtype, status := "sent",
          timestamp := now, edited_at := none, reply_to := none, reactions := [],
          is_deleted := false } := by
    simp [send_message]
  have hpair : direct_pair a b (send_message st mid a (some b) content mtype gid now
      nid).1 = true := by
    simp [hrow, direct_pair]
  have hlen1 : ((send_message st mid a (some b) content mtype gid now
        nid).2.messages.filter (direct_pair a b)).length ≤ limit := by
    rw [hmsgs, List.filter_append]
    simp only [List.length_append]
    have : ([(send_message st mid a (some b) content mtype gid now nid).1].filter
        (direct_pair a b)).length ≤ 1 := by
      simp [hpair]
    omega
  constructor
  · refine mem_get_messages_of_mem_filter _ a b limit _ ?_ hpair hlen1
    rw [hmsgs]
    exact List.mem_append_right _ (List.mem_cons_self _ _)
  · have hdel : (softDeleteMessage
        (send_message st mid a (some b) content mtype gid now nid).2 mid).messages
        = st.messages ++
          [{ (send_message st mid a (some b) content mtype gid now nid).1 with
              is_deleted := true }] := by
      simp only [softDeleteMessage, hmsgs, List.map_append]
      congr 1
      · have : ∀ m ∈ st.messages,
            (if m.message_id == mid then { m with is_deleted := true } else m) = m := by
          intro m hm
          rw [if_neg (by simp [hfresh m hm] : ¬(m.message_id == mid) = true)]
        rw [List.map_congr_left this]
        simp
      · simp [hrow]
    have hpair2 : direct_pair a b
        { (send_message st mid a (some b) content mtype gid now nid).1 with
            is_deleted := true } = true := by
      simp [hrow, direct_pair]
    refine mem_get_messages_of_mem_filter _ a b limit _ ?_ hpair2 ?_
    · rw [hdel]
      exact List.mem_append_right _ (List.mem_cons_self _ _)
    · rw [hdel, List.filter_append]
      simp only [List.length_append]
      have h1 : ∀ x : MessageRow, (List.filter (direct_pair a b) [x]).length ≤ 1 := by
        intro x
        by_cases hx : direct_pair a b x = true <;> simp [hx]
      exact Nat.le_trans (Nat.add_le_add_left (h1 _) _) hcount

/-- C5 witness: a concrete send in the empty database is immediately visible. -/
theorem send_message_no_ttl_spec_witness :
    (send_message initState "m1" "alice" (some "bob") "hi" "text" none 3 "n1").1
      ∈ get_messages
          (send_message initState "m1" "alice" (some "bob") "hi" "text" none 3 "n1").2
          "alice" "bob" 50 :=
  (send_message_no_ttl_spec initState "m1" "alice" "bob" "hi" "text" none 3 "n1" 50
    (by decide) (by decide)).1

/-- C5 counterexample: the claim says a message without TTL is visible only until
soft-deleted; in the source, after `softDeleteMessage` flips `is_deleted`, the direct
query still returns the row (so visibility does NOT end at soft-deletion), because
`get_messages` has no `is_deleted` filter — and `send_message` offers no TTL at all. -/
theorem send_message_ttl_claim_counterexample :
    get_messages
        (softDeleteMessage
          (send_message initState "m1" "alice" (some "bob") "hi" "text" none 3 "n1").2
          "m1")
        "alice" "bob" 50
      = [{ message_id := "m1", sender_id := "alice", recipient_id := some "bob",
           group_id := none, content := "hi", message_type := "text", status := "sent",
           timestamp := 3, edited_at := none, reply_to := none, reactions := [],
           is_deleted := true }] := by decide

/-- C8: the group returned by `create_group` always lists the creator in both
`admin_ids` and `member_ids` — also when the creator is omitted from the `member_ids`
argument, since the source prepends `creator_id` before deduplicating — and its stored
member list contains no duplicate elements. -/
theorem create_group_spec (st : DBState) (gid name description creator : String)
    (member_ids : List String) (now : Nat) (nids : List String) :
    creator ∈ (create_group st gid name description creator member_ids now
        nids).1.admin_ids ∧
    creator ∈ (create_group st gid name description creator member_ids now
        nids).1.member_ids ∧
    (create_group st gid name description creator member_ids now
        nids).1.member_ids.Nodup := by
  refine ⟨?_, ?_, ?_⟩
  · simp [create_group]
  · simp [create_group]
  · simp only [create_group]
    exact List.nodup_dedup _

/-- C10: `send_message` always appends exactly the one returned message row; when the
recipient is truthy (present and non-empty) and differs from the sender it also appends
exactly one notification addressed to that recipient, whose body is the content
truncated to 50 characters plus "..." when longer; otherwise the notifications table is
untouched. -/
theorem send_message_notification_spec (st : DBState) (mid sender : String)
    (recipient : Option String) (content mtype : String) (gid : Option String)
    (now : Nat) (nid : String) :
    (send_message st mid sender recipient content mtype gid now nid).2.messages
      = st.messages ++
        [(send_message st mid sender recipient content mtype gid now nid).1] ∧
    (∀ r, recipient = some r → r ≠ "" → r ≠ sender →
      (send_message st mid sender recipient content mtype gid now nid).2.notifications
        = st.notifications ++
          [{ notification_id := nid, user_id := r,
             title := "New message from " ++ sender_display_name st sender,
             message := if content.length > 50 then content.take 50 ++ "..."
               else content,
             type := "message", created_at := now, is_read := false }]) ∧
    (notify_cond recipient sender = false →
      (send_message st mid sender recipient content mtype gid now
        nid).2.notifications = st.notifications) := by
  refine ⟨send_message_messages st mid sender recipient content mtype gid now nid,
    ?_, ?_⟩
  · rintro r rfl hr hrs
    have hc : notify_cond (some r) sender = true := by
      simp [notify_cond, hr, hrs]
    simp [send_message, hc, create_notification, truncated_content,
      sender_display_name, get_user_by_id]
  · intro hc
    simp [send_message, hc]

/-- C10 witness: sending "hi" from the stored user "alice" (id "u1") to "bob" inserts
exactly one notification addressed to "bob" with the untruncated body. -/
theorem send_message_notification_spec_witness :
    (send_message exUsersSt "m1" "u1" (some "bob") "hi" "text" none 4
        "n1").2.notifications
      = [{ notification_id := "n1", user_id := "bob",
           title := "New message from alice", message := "hi", type := "message",
           created_at := 4, is_read := false }] := by
  have h := (send_message_notification_spec exUsersSt "m1" "u1" (some "bob") "hi"
    "text" none 4 "n1").2.1 "bob" rfl (by decide) (by decide)
  rw [h]
  decide

/-- Per-operation preservation for the messages table: no data-layer call ever writes a
message status other than the schema default "sent" (shared helper). -/
theorem step_preserves_sent (st : DBState) (op : DBOp)
    (h : ∀ m ∈ st.messages, m.status = "sent") :
    ∀ m ∈ (step st op).messages, m.status = "sent" := by
  cases op with
  | createUser hash user_id username email password phone now =>
    intro m hm
    apply h m
    simp only [step, create_user] at hm
    split at hm <;> simpa using hm
  | authenticateUser hash username password now =>
    intro m hm
    apply h m
    simp only [step, authenticate_user] at hm
    split at hm <;> simpa using hm
  | sendMessage message_id sender_id recipient_id content message_type group_id now
      notif_id =>
    intro m hm
    simp only [step] at hm
    rw [send_message_messages] at hm
    rcases List.mem_append.mp hm with h1 | h1
    · exact h m h1
    · have hrow : (send_message st message_id sender_id recipient_id content
          message_type group_id now notif_id).1.status = "sent" := by
        simp [send_message]
      rw [List.mem_singleton.mp h1]
      exact hrow
  | sendFriendRequest sender_id receiver_id message now notif_id =>
    intro m hm
    apply h m
    simp only [step, send_friend_request, create_notification] at hm
    split at hm
    · simpa using hm
    · split at hm <;> simpa using hm
  | respondToFriendRequest request_id response now notif_id =>
    intro m hm
    apply h m
    have hmessages : ∀ p, respond_to_friend_request st request_id response now notif_id
        = Except.ok p → p.2.messages = st.messages := by
      intro p hp
      simp only [respond_to_friend_request] at hp
      split at hp
      · cases hp
        rfl
      · split at hp
        · split at hp
          · cases hp
            rfl
          · split at hp
            · cases hp
            · cases hp
              rfl
        · cases hp
          rfl
    simp only [step] at hm
    rcases hres : respond_to_friend_request st request_id response now notif_id
      with e | p
    · rw [hres] at hm
      simpa using hm
    · rw [hres] at hm
      simp only [] at hm
      rwa [hmessages p hres] at hm
  | createNotification notification_id user_id title message notification_type now =>
    intro m hm
    apply h m
    simpa [step, create_notification] using hm
  | markNotificationRead notification_id =>
    intro m hm
    apply h m
    simpa [step, mark_notification_read] using hm
  | createGroup group_id name description creator_id member_ids now notif_ids =>
    intro m hm
    apply h m
    simpa [step, create_group] using hm
  | updateUserStatus user_id status now =>
    intro m hm
    apply h m
    simpa [step, update_user_status] using hm

/-- Any run of data-layer calls preserves the all-"sent" property of the messages table
(shared helper). -/
theorem foldl_preserves_sent (st0 : DBState)
    (h0 : ∀ m ∈ st0.messages, m.status = "sent") (ops : List DBOp) :
    ∀ m ∈ (ops.foldl step st0).messages, m.status = "sent" := by
  induction ops generalizing st0 with
  | nil => simpa using h0
  | cons op ops ih =>
    rw [List.foldl_cons]
    exact ih (step st0 op) (step_preserves_sent st0 op h0)

/-- C9: in every database state reachable from the initial (empty) database through
data-layer operations, every message row has status "sent": no operation ever advances
a message to "delivered" or "read" (those transitions are declared in the enum but
unimplemented). -/
theorem message_status_never_advances (ops : List DBOp) :
    ∀ m ∈ (ops.foldl step initState).messages, m.status = "sent" :=
  foldl_preserves_sent initState (by simp [initState]) ops

/-- C9 witness: the message produced by a concrete send reaches status "sent" and never
anything else. -/
theorem message_status_never_advances_witness :
    ({ message_id := "m1", sender_id := "alice", recipient_id := some "bob",
       group_id := none, content := "hi", message_type := "text", status := "sent",
       timestamp := 3, edited_at := none, reply_to := none, reactions := [],
       is_deleted := false } : MessageRow).status = "sent" :=
  message_status_never_advances
    [DBOp.sendMessage "m1" "alice" (some "bob") "hi" "text" none 3 "n1"] _ (by decide)

/-- An example group whose stored member list is the two ids "x" and "y". -/
def exGroup : GroupRow :=
  { group_id := "g1", name := "grp", description := "", avatar := none,
    creator_id := "x", admin_ids := ["x"], member_ids := ["x", "y"], created_at := 0 }

/-- A database holding only that group. -/
def exGroupSt : DBState := { initState with groups := [exGroup] }

/-- C7 (code bug, flagged as such by the spec itself): `get_user_groups` decides
membership with a LIKE substring test over the serialized member list instead of
exact-element containment. The user id composed of x, a quote, a comma, a quote and y
is not an element of the member list ["x", "y"], yet its quoted LIKE pattern matches
the serialized text of that list, so the source returns the group — a false positive —
while the spec-faithful exact-membership query returns nothing. -/
theorem get_user_groups_substring_bug :
    get_user_groups exGroupSt "x\",\"y" = [exGroup] ∧
    ("x\",\"y" ∈ exGroup.member_ids ↔ False) ∧
    get_user_groups_spec exGroupSt "x\",\"y" = [] := by decide

/-- Toggle computation, matching head key, member present, last member removed: the key
is pruned (shared helper). -/
theorem toggle_cons_same_mem_nil (e0 : String) (us : List String) (rest : Reactions)
    (emoji user_id : String) (he : e0 = emoji) (hm : user_id ∈ us)
    (hnil : us.erase user_id = []) :
    toggleReaction ((e0, us) :: rest) emoji user_id = rest := by
  simp [toggleReaction, he, hm, hnil]

/-- Toggle computation, matching head key, member present, other members remain
(shared helper). -/
theorem toggle_cons_same_mem_cons (e0 : String) (us : List String) (rest : Reactions)
    (emoji user_id : String) (he : e0 = emoji) (hm : user_id ∈ us)
    (hnil : us.erase user_id ≠ []) :
    toggleReaction ((e0, us) :: rest) emoji user_id
      = (e0, us.erase user_id) :: rest := by
  simp [toggleReaction, he, hm, hnil]

/-- Toggle computation, matching head key, member absent: the member is appended
(shared helper). -/
theorem toggle_cons_same_not_mem (e0 : String) (us : List String) (rest : Reactions)
    (emoji user_id : String) (he : e0 = emoji) (hm : user_id ∉ us) :
    toggleReaction ((e0, us) :: rest) emoji user_id
      = (e0, us ++ [user_id]) :: rest := by
  simp [toggleReaction, he, hm]

/-- Toggle computation, non-matching head key (shared helper). -/
theorem toggle_cons_diff (e0 : String) (us : List String) (rest : Reactions)
    (emoji user_id : String) (he : e0 ≠ emoji) :
    toggleReaction ((e0, us) :: rest) emoji user_id
      = (e0, us) :: toggleReaction rest emoji user_id := by
  simp [toggleReaction, he]

/-- Toggling a key absent from the map appends a fresh singleton entry (shared
helper). -/
theorem toggleReaction_not_mem_keys (r : Reactions) (emoji user_id : String)
    (h : emoji ∉ r.map Prod.fst) :
    toggleReaction r emoji user_id = r ++ [(emoji, [user_id])] := by
  induction r with
  | nil => rfl
  | cons p rest ih =>
    obtain ⟨e0, us⟩ := p
    have he : e0 ≠ emoji := by
      intro heq
      exact h (by simp [heq])
    rw [toggle_cons_diff e0 us rest emoji user_id he,
      ih (fun hh => h (List.mem_cons_of_mem _ hh))]
    rfl

/-- `lookup` misses keys that are not in the map (shared helper). -/
theorem lookup_eq_none_of_not_mem_keys (r : Reactions) (e : String)
    (h : e ∉ r.map Prod.fst) : r.lookup e = none := by
  induction r with
  | nil => rfl
  | cons p rest ih =>
    obtain ⟨k, v⟩ := p
    have hek : ¬(e == k) = true := by
      intro heq
      apply h
      simp
      exact Or.inl (beq_iff_eq.mp heq)
    simp only [List.lookup, hek]
    exact ih (fun hh => h (List.mem_cons_of_mem _ hh))

/-- Unfolding `reacted` over a cons cell (shared helper). -/
theorem reacted_cons (e0 : String) (us : List String) (rest : Reactions) (e u : String) :
    reacted ((e0, us) :: rest) e u
      = if e = e0 then us.contains u else reacted rest e u := by
  by_cases h : e = e0
  · have hb : (e == e0) = true := by simp [h]
    simp [reacted, List.lookup, hb, h]
  · have hb : (e == e0) = false := by simp [h]
    simp [reacted, List.lookup, hb, h]

/-- A key outside the map has no reactions (shared helper). -/
theorem reacted_eq_false_of_not_mem_keys (r : Reactions) (e u : String)
    (h : e ∉ r.map Prod.fst) : reacted r e u = false := by
  simp [reacted, lookup_eq_none_of_not_mem_keys r e h]

/-- Contains over a singleton (shared helper). -/
theorem contains_singleton (a u : String) : ([a].contains u) = (u == a) := by
  simp only [List.contains, List.elem]
  cases h : u == a <;> rfl

/-- Reading a map extended with a fresh singleton key (shared helper). -/
theorem reacted_append_singleton (rest : Reactions) (emoji user_id e u : String)
    (h : emoji ∉ rest.map Prod.fst) :
    reacted (rest ++ [(emoji, [user_id])]) e u
      = if e = emoji then (u == user_id) else reacted rest e u := by
  induction rest with
  | nil =>
    rw [List.nil_append, reacted_cons, contains_singleton]
  | cons p rest ih =>
    obtain ⟨k, v⟩ := p
    have hk : emoji ≠ k := by
      intro heq
      exact h (by simp [heq])
    rw [List.cons_append, reacted_cons, reacted_cons,
      ih (fun hh => h (List.mem_cons_of_mem _ hh))]
    by_cases hek : e = k
    · rw [if_pos hek, if_pos hek, if_neg (by rw [hek]; exact fun hh => hk hh.symm)]
    · rw [if_neg hek, if_neg hek]

/-- Erasing the sole member and re-adding it preserves membership of a duplicate-free
set (shared helper). -/
theorem contains_erase_append (us : List String) (a u : String) (hn : us.Nodup)
    (hm : a ∈ us) : (us.erase a ++ [a]).contains u = us.contains u := by
  by_cases hu : u ∈ us
  · have h2 : u ∈ us.erase a ++ [a] := by
      rw [List.mem_append, hn.mem_erase_iff]
      by_cases hua : u = a
      · right
        simp [hua]
      · left
        exact ⟨hua, hu⟩
    simp [hu, h2]
  · have h2 : u ∉ us.erase a ++ [a] := by
      rw [List.mem_append]
      rintro (h3 | h3)
      · exact hu (hn.mem_erase_iff.mp h3).2
      · rw [List.mem_singleton] at h3
        exact hu (h3 ▸ hm)
    simp [hu, h2]

/-- Erasing a list down to nil identifies the singleton (shared helper). -/
theorem eq_singleton_of_erase_nil (us : List String) (a : String) (hm : a ∈ us)
    (he : us.erase a = []) : us = [a] := by
  cases us with
  | nil => cases hm
  | cons x xs =>
    rw [List.erase_cons] at he
    by_cases hx : x = a
    · subst hx
      simp at he
      subst he
      rfl
    · rw [if_neg (by simp [hx])] at he
      cases he

/-- Double toggle restores the reaction relation of a well-formed map (shared
helper). -/
theorem reacted_toggle_toggle : ∀ (r : Reactions) (emoji user_id : String),
    (r.map Prod.fst).Nodup → (∀ p ∈ r, (Prod.snd p).Nodup) →
    ∀ e u, reacted (toggleReaction (toggleReaction r emoji user_id) emoji user_id) e u
      = reacted r e u := by
  intro r emoji user_id
  induction r with
  | nil =>
    intro _ _ e u
    have h2 : toggleReaction (toggleReaction [] emoji user_id) emoji user_id = [] := by
      show toggleReaction [(emoji, [user_id])] emoji user_id = []
      rw [toggle_cons_same_mem_nil emoji [user_id] [] emoji user_id rfl
        (List.mem_singleton.mpr rfl) (by simp)]
    rw [h2]
  | cons q rest ih =>
    obtain ⟨e0, us⟩ := q
    intro hkeys hvals e u
    rw [List.map_cons, List.nodup_cons] at hkeys
    have husnd : us.Nodup := by
      simpa using hvals (e0, us) (List.mem_cons_self _ _)
    have hvals' : ∀ q ∈ rest, (Prod.snd q).Nodup :=
      fun q hq => hvals q (List.mem_cons_of_mem _ hq)
    by_cases he0 : e0 = emoji
    · subst he0
      by_cases hmem : user_id ∈ us
      · by_cases hnil : us.erase user_id = []
        · have hus : us = [user_id] := eq_singleton_of_erase_nil us user_id hmem hnil
          rw [toggle_cons_same_mem_nil e0 us rest e0 user_id rfl hmem hnil,
            toggleReaction_not_mem_keys rest e0 user_id hkeys.1,
            reacted_append_singleton rest e0 user_id e u hkeys.1, reacted_cons]
          by_cases hee : e = e0
          · rw [if_pos hee, if_pos hee, hus, contains_singleton]
          · rw [if_neg hee, if_neg hee]
        · rw [toggle_cons_same_mem_cons e0 us rest e0 user_id rfl hmem hnil,
            toggle_cons_same_not_mem e0 (us.erase user_id) rest e0 user_id rfl
              husnd.not_mem_erase,
            reacted_cons, reacted_cons]
          by_cases hee : e = e0
          · rw [if_pos hee, if_pos hee,
              contains_erase_append us user_id u husnd hmem]
          · rw [if_neg hee, if_neg hee]
      · rw [toggle_cons_same_not_mem e0 us rest e0 user_id rfl hmem]
        have herase : (us ++ [user_id]).erase user_id = us := by
          rw [List.erase_append_right _ hmem]
          simp
        by_cases husnil : us = []
        · subst husnil
          rw [toggle_cons_same_mem_nil e0 ([] ++ [user_id]) rest e0 user_id rfl
            (by simp) herase, reacted_cons]
          by_cases hee : e = e0
          · rw [if_pos hee, hee, reacted_eq_false_of_not_mem_keys rest e0 u hkeys.1]
            rfl
          · rw [if_neg hee]
        · rw [toggle_cons_same_mem_cons e0 (us ++ [user_id]) rest e0 user_id rfl
            (by simp) (by rw [herase]; exact husnil), herase]
    · rw [toggle_cons_diff e0 us rest emoji user_id he0,
        toggle_cons_diff e0 us (toggleReaction rest emoji user_id) emoji user_id he0,
        reacted_cons, reacted_cons]
      by_cases hee : e = e0
      · rw [if_pos hee, if_pos hee]
      · rw [if_neg hee, if_neg hee]
        exact ih hkeys.2 hvals' e u

/-- Toggling preserves the no-empty-user-list invariant (shared helper). -/
theorem noEmpty_toggleReaction : ∀ (r : Reactions) (emoji user_id : String),
    NoEmptyReactions r → NoEmptyReactions (toggleReaction r emoji user_id) := by
  intro r emoji user_id
  induction r with
  | nil =>
    intro _ p hp
    rw [show toggleReaction [] emoji user_id = [(emoji, [user_id])] from rfl] at hp
    rw [List.mem_singleton] at hp
    subst hp
    simp
  | cons q rest ih =>
    obtain ⟨e0, us⟩ := q
    intro h
    have h' : NoEmptyReactions rest := fun p hp => h p (List.mem_cons_of_mem _ hp)
    by_cases he : e0 = emoji
    · by_cases hmem : user_id ∈ us
      · by_cases hnil : us.erase user_id = []
        · rw [toggle_cons_same_mem_nil e0 us rest emoji user_id he hmem hnil]
          exact h'
        · rw [toggle_cons_same_mem_cons e0 us rest emoji user_id he hmem hnil]
          intro p hp
          rcases List.mem_cons.mp hp with rfl | hp2
          · simpa using hnil
          · exact h' p hp2
      · rw [toggle_cons_same_not_mem e0 us rest emoji user_id he hmem]
        intro p hp
        rcases List.mem_cons.mp hp with rfl | hp2
        · simp
        · exact h' p hp2
    · rw [toggle_cons_diff e0 us rest emoji user_id he]
      intro p hp
      rcases List.mem_cons.mp hp with rfl | hp2
      · exact h (e0, us) (List.mem_cons_self _ _)
      · exact ih h' p hp2

/-- C6 (spec-modelled, `toggleReaction` is absent from src/app.py): on a well-formed
reactions map, toggling the same (emoji, user) twice returns the reaction relation to
its prior state — the toggle is its own inverse — and after any single toggle the map
never contains an emoji key mapped to an empty user list. -/
theorem toggleReaction_spec (r : Reactions) (emoji user_id : String)
    (hwf : WFReactions r) (hne : NoEmptyReactions r) :
    (∀ e u, reacted (toggleReaction (toggleReaction r emoji user_id) emoji user_id) e u
        = reacted r e u) ∧
    (∀ e0 u0, NoEmptyReactions (toggleReaction r e0 u0)) :=
  ⟨reacted_toggle_toggle r emoji user_id hwf.1 hwf.2,
   fun e0 u0 => noEmpty_toggleReaction r e0 u0 hne⟩

/-- C6 witness: toggling "u2" twice on a concrete map leaves "u2" unreacted, exactly as
before. -/
theorem toggleReaction_spec_witness :
    reacted (toggleReaction (toggleReaction [("like", ["u1"])] "like" "u2") "like" "u2")
        "like" "u2"
      = reacted [("like", ["u1"])] "like" "u2" :=
  (toggleReaction_spec [("like", ["u1"])] "like" "u2" (by constructor <;> decide)
    (by unfold NoEmptyReactions; decide)).1 "like" "u2"
